import Mathlib

/-!
Verification of the flair58mqtt firmware core (crates/f58mqtt_rp2040).

Shallow embedding of the Rust sources:
  * `state.rs`  — LED signal tracking, device-state classification, and the
    actuation reconciler (`get_action`);
  * `mqtt.rs`   — the blocking socket adapter (`BlockingSocketStack`), inbound
    command parsing (`process_incoming`) and the telemetry publish condition
    of `minimq_task`.

Time is modelled in milliseconds as `Nat` (`embassy_time::Instant::MIN` is tick
0, `Instant::duration_since` is truncated subtraction). Byte strings are
`List Char` over their ASCII code points.
-/

namespace Flair58

/-- Power levels of the device, as labelled on it (`state.rs`). -/
inductive PowerLevel
  | Low
  | Medium
  | High
deriving DecidableEq, Repr

/-- The device state observed from the LEDs (`state.rs::DeviceState`). -/
inductive DeviceState
  | Off
  | Unknown
  | Heating (p : PowerLevel)
  | On (p : PowerLevel)
deriving DecidableEq, Repr

/-- `gpio::Level`: the sampled digital level of an input pin. -/
inductive Level
  | Low
  | High
deriving DecidableEq, Repr

/-- Target state for the device (`state.rs::TargetState`). -/
inductive TargetState
  | Off
  | On (p : PowerLevel)
deriving DecidableEq, Repr

/-- Duration after which the LED is considered not blinking and steady
(`BLINK_DURATION = 900 ms`). -/
def BLINK_DURATION : Nat := 900

/-- Per-LED sub-state (`state.rs::LedState`). -/
inductive LedState
  | Off
  | On
  | Blinking
deriving DecidableEq, Repr

/-- `state.rs::led_state`: an LED whose last change is within `BLINK_DURATION`
of `now` is `Blinking`; otherwise it is steady at its last level. -/
def led_state (obs : Nat × Level) (now : Nat) : LedState :=
  if now - obs.1 > BLINK_DURATION then
    match obs.2 with
    | Level.Low => LedState.Off
    | Level.High => LedState.On
  else
    LedState.Blinking

/-- `state.rs::DeviceStateManager`: the last observed `(timestamp, level)` pair
for each of the three LEDs, indexed by `PowerLevel as usize`. -/
structure DeviceStateManager where
  leds : Fin 3 → Nat × Level
deriving DecidableEq

/-- `PowerLevel as usize`: the LED array index of a power level. -/
def PowerLevel.toIndex : PowerLevel → Fin 3
  | PowerLevel.Low => 0
  | PowerLevel.Medium => 1
  | PowerLevel.High => 2

/-- `DeviceStateManager::new()`: all three LEDs stored as
`(Instant::MIN, Level::Low)`, i.e. off since the beginning of time. -/
def DeviceStateManager.new : DeviceStateManager :=
  ⟨fun _ => (0, Level.Low)⟩

/-- `DeviceStateManager::update`: record a sampled level for one LED, but only
if it differs from the stored level (edge-triggered). -/
def DeviceStateManager.update (m : DeviceStateManager) (led : PowerLevel)
    (level : Level) (now : Nat) : DeviceStateManager :=
  if (m.leds led.toIndex).2 ≠ level then
    ⟨Function.update m.leds led.toIndex (now, level)⟩
  else
    m

/-- `DeviceStateManager::state`: whole-device classification from the three
per-LED sub-states. -/
def DeviceStateManager.state (m : DeviceStateManager) (now : Nat) : DeviceState :=
  match led_state (m.leds 0) now, led_state (m.leds 1) now, led_state (m.leds 2) now with
  | LedState.Off, LedState.Off, LedState.Off => DeviceState.Off
  | LedState.On, LedState.Off, LedState.Off => DeviceState.On PowerLevel.Low
  | LedState.On, LedState.On, LedState.Off => DeviceState.On PowerLevel.Medium
  | LedState.On, LedState.On, LedState.On => DeviceState.On PowerLevel.High
  | LedState.Blinking, LedState.Off, LedState.Off => DeviceState.Heating PowerLevel.Low
  | LedState.On, LedState.Blinking, LedState.Off => DeviceState.Heating PowerLevel.Medium
  | LedState.On, LedState.On, LedState.Blinking => DeviceState.Heating PowerLevel.High
  | _, _, _ => DeviceState.Unknown

/-- The spec's per-LED sub-classification, written from §4.1 of the design:
`Blinking` when `now - lastChangeTime ≤ 900 ms`, otherwise steady per the
stored level. -/
def subStateSpec (obs : Nat × Level) (now : Nat) : LedState :=
  if now - obs.1 ≤ BLINK_DURATION then
    LedState.Blinking
  else
    match obs.2 with
    | Level.Low => LedState.Off
    | Level.High => LedState.On

/-- The spec's fixed whole-device lookup table over the three per-LED
sub-states (§4.1). -/
def classifyTableSpec : LedState → LedState → LedState → DeviceState
  | LedState.Off, LedState.Off, LedState.Off => DeviceState.Off
  | LedState.On, LedState.Off, LedState.Off => DeviceState.On PowerLevel.Low
  | LedState.On, LedState.On, LedState.Off => DeviceState.On PowerLevel.Medium
  | LedState.On, LedState.On, LedState.On => DeviceState.On PowerLevel.High
  | LedState.Blinking, LedState.Off, LedState.Off => DeviceState.Heating PowerLevel.Low
  | LedState.On, LedState.Blinking, LedState.Off => DeviceState.Heating PowerLevel.Medium
  | LedState.On, LedState.On, LedState.Blinking => DeviceState.Heating PowerLevel.High
  | _, _, _ => DeviceState.Unknown

theorem led_state_eq_subStateSpec (obs : Nat × Level) (now : Nat) :
    led_state obs now = subStateSpec obs now := by
  unfold led_state subStateSpec
  rcases obs with ⟨t, l⟩
  by_cases h : now - t > BLINK_DURATION
  · have h' : ¬ now - t ≤ BLINK_DURATION := by omega
    simp only [h, if_true, h', if_false]
  · have h' : now - t ≤ BLINK_DURATION := by omega
    simp only [h, if_false, h', if_true]

/-- Period after which the device being in unknown state triggers a log message
(`STATE_WARNING_TIMEOUT = 11 s`). -/
def STATE_WARNING_TIMEOUT : Nat := 11000

/-- Period after which the device being in unknown state triggers a reset
attempt (`RESET_TIMEOUT = 21 s`). -/
def RESET_TIMEOUT : Nat := 21000

/-- The action performed on the button (`state.rs::Action`). -/
inductive Action
  | None
  | ShortPush
  | LongPush
deriving DecidableEq, Repr

/-- The first `match` of `state.rs::get_action`: map the observed state to the
comparable target shape; `Unknown` has none (the Rust arm early-returns). -/
def goalShape : DeviceState → Option TargetState
  | DeviceState.Off => some TargetState.Off
  | DeviceState.Heating x => some (TargetState.On x)
  | DeviceState.On x => some (TargetState.On x)
  | DeviceState.Unknown => none

/-- `state.rs::get_action`: the action to bring the device toward the target
state. The `&mut Option<Instant>` argument is modelled by returning the pair
`(action, updated unknown_state_since)`. -/
def get_action (current_state : DeviceState) (target_state : TargetState)
    (now : Nat) (unknown_state_since : Option Nat) : Action × Option Nat :=
  match goalShape current_state with
  | none =>
    let p : Nat × Option Nat :=
      match unknown_state_since with
      | some x => (now - x, some x)
      | none => (0, some now)
    if p.1 > RESET_TIMEOUT then
      (Action.LongPush, none)
    else
      (Action.None, p.2)
  | some current =>
    let act : Action :=
      if current = target_state then Action.None
      else
        match current, target_state with
        | TargetState.Off, TargetState.On _ => Action.LongPush
        | TargetState.On _, TargetState.Off => Action.LongPush
        | _, _ => Action.ShortPush
    (act, none)

/-- Whether a target shape is `On(_)`. -/
def TargetState.isOn : TargetState → Bool
  | TargetState.Off => false
  | TargetState.On _ => true

/-- C1: for every stored per-LED state and every time `now`, the whole-device
classification equals the spec's fixed lookup table applied to the spec's three
per-LED sub-states (`Blinking` iff `now - lastChangeTime ≤ 900 ms`, otherwise
steady per the stored level); the function is total and deterministic by
construction. -/
theorem classify_eq_spec_table (m : DeviceStateManager) (now : Nat) :
    m.state now =
      classifyTableSpec (subStateSpec (m.leds 0) now) (subStateSpec (m.leds 1) now)
        (subStateSpec (m.leds 2) now) := by
  unfold DeviceStateManager.state
  rw [led_state_eq_subStateSpec, led_state_eq_subStateSpec, led_state_eq_subStateSpec]
  generalize subStateSpec (m.leds 0) now = a
  generalize subStateSpec (m.leds 1) now = b
  generalize subStateSpec (m.leds 2) now = c
  cases a <;> cases b <;> cases c <;> rfl

/-- C9: recording a level equal to the one already stored for that LED is a
no-op on the tracker state, hence classification at any time `t` is unchanged. -/
theorem update_same_level_noop (m : DeviceStateManager) (led : PowerLevel)
    (level : Level) (now t : Nat) (h : (m.leds led.toIndex).2 = level) :
    m.update led level now = m ∧ (m.update led level now).state t = m.state t := by
  have hm : m.update led level now = m := by
    unfold DeviceStateManager.update
    simp [h]
  exact ⟨hm, by rw [hm]⟩

theorem update_same_level_noop_witness :
    (DeviceStateManager.new.leds PowerLevel.Low.toIndex).2 = Level.Low ∧
      (DeviceStateManager.new.update PowerLevel.Low Level.Low 5 = DeviceStateManager.new ∧
        (DeviceStateManager.new.update PowerLevel.Low Level.Low 5).state 3 =
          DeviceStateManager.new.state 3) :=
  ⟨rfl, update_same_level_noop DeviceStateManager.new PowerLevel.Low Level.Low 5 3 rfl⟩

/-- C10: in the freshly initialized tracker (all LEDs `(Instant::MIN, Low)`,
with `Instant::MIN` = tick 0), classification is `Unknown` for every `now`
within the 900 ms blink window of tick 0 and `Off` for every later `now`. -/
theorem initial_state_unknown_then_off (now : Nat) :
    (now ≤ BLINK_DURATION → DeviceStateManager.new.state now = DeviceState.Unknown) ∧
      (BLINK_DURATION < now → DeviceStateManager.new.state now = DeviceState.Off) := by
  constructor
  · intro h
    have h' : ¬ BLINK_DURATION < now := by omega
    simp [DeviceStateManager.state, DeviceStateManager.new, led_state, h']
  · intro h
    simp [DeviceStateManager.state, DeviceStateManager.new, led_state, h]

theorem initial_state_unknown_then_off_witness :
    ((900 : Nat) ≤ BLINK_DURATION ∧ DeviceStateManager.new.state 900 = DeviceState.Unknown) ∧
      (BLINK_DURATION < 901 ∧ DeviceStateManager.new.state 901 = DeviceState.Off) :=
  ⟨⟨by decide, (initial_state_unknown_then_off 900).1 (by decide)⟩,
    ⟨by decide, (initial_state_unknown_then_off 901).2 (by decide)⟩⟩

/-- C2: while the current state is `Unknown`, `get_action` records `now` on the
first call (returning `None`), keeps returning `None` while the elapsed time
since the recorded instant is at most `RESET_TIMEOUT` (21 s) and leaves the
recorded instant in place, and on the first call whose elapsed time exceeds
21 s returns `LongPush` and clears the recorded instant (so a further
`LongPush` needs a fresh 21 s of continuous `Unknown`). -/
theorem get_action_unknown_escalation (target : TargetState) (now t : Nat) :
    get_action DeviceState.Unknown target now none = (Action.None, some now) ∧
      (now - t ≤ RESET_TIMEOUT →
        get_action DeviceState.Unknown target now (some t) = (Action.None, some t)) ∧
      (RESET_TIMEOUT < now - t →
        get_action DeviceState.Unknown target now (some t) = (Action.LongPush, none)) := by
  refine ⟨?_, ?_, ?_⟩
  · simp [get_action, goalShape, RESET_TIMEOUT]
  · intro h
    have h' : ¬ RESET_TIMEOUT < now - t := by omega
    simp [get_action, goalShape, h']
  · intro h
    simp [get_action, goalShape, h]

theorem get_action_unknown_escalation_witness :
    get_action DeviceState.Unknown TargetState.Off 5 none = (Action.None, some 5) ∧
      ((7 : Nat) - 5 ≤ RESET_TIMEOUT ∧
        get_action DeviceState.Unknown TargetState.Off 7 (some 5) = (Action.None, some 5)) ∧
      (RESET_TIMEOUT < 30000 - 5 ∧
        get_action DeviceState.Unknown TargetState.Off 30000 (some 5) =
          (Action.LongPush, none)) :=
  ⟨(get_action_unknown_escalation TargetState.Off 5 0).1,
    ⟨by decide, (get_action_unknown_escalation TargetState.Off 7 5).2.1 (by decide)⟩,
    ⟨by decide, (get_action_unknown_escalation TargetState.Off 30000 5).2.2 (by decide)⟩⟩

/-- C3: for a classifiable current state (goal shape `s`), `get_action` clears
`unknown_state_since` and returns `None` iff the shape equals the target,
`LongPush` iff exactly one of shape and target is `Off` (the other `On(_)`),
and `ShortPush` iff both are `On` at different power levels — for every `now`
and every prior `unknown_state_since`. -/
theorem get_action_known_reconcile (current : DeviceState) (target : TargetState)
    (now : Nat) (since : Option Nat) (s : TargetState)
    (hs : goalShape current = some s) :
    (get_action current target now since).2 = none ∧
      ((get_action current target now since).1 = Action.None ↔ s = target) ∧
      ((get_action current target now since).1 = Action.LongPush ↔
        (s = TargetState.Off ∧ target.isOn = true) ∨
          (s.isOn = true ∧ target = TargetState.Off)) ∧
      ((get_action current target now since).1 = Action.ShortPush ↔
        s.isOn = true ∧ target.isOn = true ∧ s ≠ target) := by
  cases current with
  | Unknown => simp [goalShape] at hs
  | Off =>
    simp only [goalShape, Option.some.injEq] at hs
    subst hs
    rcases target with _ | q <;> simp [get_action, goalShape, TargetState.isOn]
  | Heating x =>
    simp only [goalShape, Option.some.injEq] at hs
    subst hs
    rcases target with _ | q
    · simp [get_action, goalShape, TargetState.isOn]
    · by_cases hxq : x = q
      · subst hxq
        simp [get_action, goalShape, TargetState.isOn]
      · simp [get_action, goalShape, TargetState.isOn, hxq]
  | On x =>
    simp only [goalShape, Option.some.injEq] at hs
    subst hs
    rcases target with _ | q
    · simp [get_action, goalShape, TargetState.isOn]
    · by_cases hxq : x = q
      · subst hxq
        simp [get_action, goalShape, TargetState.isOn]
      · simp [get_action, goalShape, TargetState.isOn, hxq]

theorem get_action_known_reconcile_witness :
    goalShape (DeviceState.On PowerLevel.Medium) = some (TargetState.On PowerLevel.Medium) ∧
      ((get_action (DeviceState.On PowerLevel.Medium) (TargetState.On PowerLevel.High) 4
            (some 2)).2 = none ∧
        ((get_action (DeviceState.On PowerLevel.Medium) (TargetState.On PowerLevel.High) 4
              (some 2)).1 = Action.None ↔
          TargetState.On PowerLevel.Medium = TargetState.On PowerLevel.High) ∧
        ((get_action (DeviceState.On PowerLevel.Medium) (TargetState.On PowerLevel.High) 4
              (some 2)).1 = Action.LongPush ↔
          (TargetState.On PowerLevel.Medium = TargetState.Off ∧
              (TargetState.On PowerLevel.High).isOn = true) ∨
            ((TargetState.On PowerLevel.Medium).isOn = true ∧
              TargetState.On PowerLevel.High = TargetState.Off)) ∧
        ((get_action (DeviceState.On PowerLevel.Medium) (TargetState.On PowerLevel.High) 4
              (some 2)).1 = Action.ShortPush ↔
          (TargetState.On PowerLevel.Medium).isOn = true ∧
            (TargetState.On PowerLevel.High).isOn = true ∧
            TargetState.On PowerLevel.Medium ≠ TargetState.On PowerLevel.High)) :=
  ⟨rfl,
    get_action_known_reconcile (DeviceState.On PowerLevel.Medium)
      (TargetState.On PowerLevel.High) 4 (some 2) (TargetState.On PowerLevel.Medium) rfl⟩

/-- Minimum period between unconditional state republications
(`mqtt.rs::STATE_UPDATE_PERIOD = 60 s`). -/
def STATE_UPDATE_PERIOD : Nat := 60000

/-- The publish condition of `mqtt.rs::minimq_task`: the state is published
(retained) when `now.duration_since(last_published_state.0) > STATE_UPDATE_PERIOD
|| (last_published_state.1 != new_state && new_state != Unknown)`. -/
def should_publish_state (last_published_state : Nat × DeviceState) (now : Nat)
    (new_state : DeviceState) : Prop :=
  now - last_published_state.1 > STATE_UPDATE_PERIOD ∨
    (last_published_state.2 ≠ new_state ∧ new_state ≠ DeviceState.Unknown)

instance (l : Nat × DeviceState) (now : Nat) (s : DeviceState) :
    Decidable (should_publish_state l now s) := by
  unfold should_publish_state
  infer_instance

/-- The publish condition as the claim words it: "at least 60 s have elapsed",
i.e. `≥` instead of the code's strict `>`. -/
def claimedPublishCondition (last : Nat × DeviceState) (now : Nat)
    (s : DeviceState) : Prop :=
  now - last.1 ≥ STATE_UPDATE_PERIOD ∨ (last.2 ≠ s ∧ s ≠ DeviceState.Unknown)

instance (l : Nat × DeviceState) (now : Nat) (s : DeviceState) :
    Decidable (claimedPublishCondition l now s) := by
  unfold claimedPublishCondition
  infer_instance

/-- C4 counterexample: with exactly 60 s elapsed since the last publish and an
unchanged state, the code does not publish, while the claim's "at least 60 s"
condition says it should — so the claimed equivalence fails. -/
theorem publish_at_least_60s_counterexample :
    ¬ (should_publish_state (0, DeviceState.Off) 60000 DeviceState.Off ↔
        claimedPublishCondition (0, DeviceState.Off) 60000 DeviceState.Off) := by
  decide

/-- C4 (amended): the state is published iff strictly more than 60 s have
elapsed since the last recorded publish, or the state changed and the new state
is not `Unknown`; in particular an `Unknown` reading is published only via the
elapsed-time fallback. -/
theorem publish_iff_over_60s_or_changed (last : Nat × DeviceState) (now : Nat)
    (s : DeviceState) :
    (should_publish_state last now s ↔
        now - last.1 > STATE_UPDATE_PERIOD ∨
          (last.2 ≠ s ∧ s ≠ DeviceState.Unknown)) ∧
      (s = DeviceState.Unknown →
        (should_publish_state last now s ↔ now - last.1 > STATE_UPDATE_PERIOD)) := by
  refine ⟨Iff.rfl, ?_⟩
  intro hs
  subst hs
  unfold should_publish_state
  simp

theorem publish_iff_over_60s_or_changed_witness :
    ((should_publish_state (0, DeviceState.Off) 70000 DeviceState.Unknown ↔
        70000 - (0 : Nat) > STATE_UPDATE_PERIOD ∨
          (DeviceState.Off ≠ DeviceState.Unknown ∧
            DeviceState.Unknown ≠ DeviceState.Unknown)) ∧
      (DeviceState.Unknown = DeviceState.Unknown ∧
        (should_publish_state (0, DeviceState.Off) 70000 DeviceState.Unknown ↔
          70000 - (0 : Nat) > STATE_UPDATE_PERIOD))) :=
  ⟨(publish_iff_over_60s_or_changed (0, DeviceState.Off) 70000 DeviceState.Unknown).1,
    rfl,
    (publish_iff_over_60s_or_changed (0, DeviceState.Off) 70000 DeviceState.Unknown).2 rfl⟩

/-- `mqtt.rs::interop::SocketError`. Endpoints are modelled as
(IPv4 octets, port). -/
inductive SocketError
  | UnexpectedAddr (expected got : (Nat × Nat × Nat × Nat) × Nat)
  | UnexpectedSocketId (expected got : Option Nat)
  | ConnectionReset
deriving DecidableEq, Repr

/-- `embedded_nal::nb::Error`: an adapter failure is either a real error or
"would block". -/
inductive NbError
  | Other (e : SocketError)
  | WouldBlock
deriving DecidableEq, Repr

/-- `embassy_net::tcp::Error` (its only variant). -/
inductive TcpError
  | ConnectionReset
deriving DecidableEq, Repr

/-- Model of the underlying `embassy_net::tcp::TcpSocket`: whether each half is
open, the buffered receive bytes, the transmit queue and its capacity. -/
structure TcpSocketModel where
  may_send : Bool
  may_recv : Bool
  rx_buffer : List Nat
  send_capacity : Nat
  tx_queue : List Nat
  closed : Bool
deriving DecidableEq, Repr

/-- `TcpSocket::send_queue()`: bytes currently queued for transmission. -/
def TcpSocketModel.send_queue (s : TcpSocketModel) : Nat := s.tx_queue.length

/-- `TcpSocket::can_recv()`: data can be read right now. -/
def TcpSocketModel.can_recv (s : TcpSocketModel) : Bool :=
  s.may_recv && !s.rx_buffer.isEmpty

/-- `TcpSocket::write` in the only situation the adapter invokes it (send
window already checked non-zero, so the future resolves immediately): fails
with `ConnectionReset` if the send half is down, otherwise queues up to the
available window and returns the number of bytes queued. -/
def TcpSocketModel.write (s : TcpSocketModel) (data : List Nat) :
    Except TcpError (Nat × TcpSocketModel) :=
  if s.may_send then
    let n := min (s.send_capacity - s.send_queue) data.length
    Except.ok (n, { s with tx_queue := s.tx_queue ++ data.take n })
  else
    Except.error TcpError.ConnectionReset

/-- `TcpSocket::read` in the only situation the adapter invokes it (`can_recv`
already checked, so the future resolves immediately): fails with
`ConnectionReset` if the receive half is down, otherwise drains up to `len`
buffered bytes and returns the count. -/
def TcpSocketModel.read (s : TcpSocketModel) (len : Nat) :
    Except TcpError (Nat × TcpSocketModel) :=
  if s.may_recv then
    let n := min s.rx_buffer.length len
    Except.ok (n, { s with rx_buffer := s.rx_buffer.drop n })
  else
    Except.error TcpError.ConnectionReset

/-- `TcpSocket::close()`: mark the socket half-closed. -/
def TcpSocketModel.close (s : TcpSocketModel) : TcpSocketModel :=
  { s with closed := true }

/-- `mqtt.rs::interop::BlockingSocketStack`: wraps a single socket as a sync
`embedded_nal::TcpClientStack` supporting one concurrent logical connection.
The Rust field `socket` is named `underlying` here because `socket` is the
name of the opening operation. -/
structure BlockingSocketStack where
  underlying : TcpSocketModel
  endpoint : (Nat × Nat × Nat × Nat) × Nat
  current_socket_id : Option Nat
  last_socket_id : Nat
deriving DecidableEq, Repr

/-- `BlockingSocketStack::check_socket`: the passed id must be the id the stack
currently emulates. -/
def BlockingSocketStack.check_socket (s : BlockingSocketStack) (got : Option Nat) :
    Except SocketError Unit :=
  if got ≠ s.current_socket_id then
    Except.error (SocketError.UnexpectedSocketId s.current_socket_id got)
  else
    Except.ok ()

/-- `BlockingSocketStack::socket` (`openLogical`): allocate a new logical id;
fails if one is already open. The `&mut self` is modelled by also returning the
post-call stack. -/
def BlockingSocketStack.socket (s : BlockingSocketStack) :
    Except SocketError Nat × BlockingSocketStack :=
  match s.check_socket none with
  | Except.error e => (Except.error e, s)
  | Except.ok _ =>
    let last := s.last_socket_id + 1
    (Except.ok last, { s with last_socket_id := last, current_socket_id := some last })

/-- `BlockingSocketStack::send`: id check, then would-block on zero send
window, short-circuit `Ok(0)` on an empty effective write, otherwise a partial
write of `min(window, buffer.len())` bytes. -/
def BlockingSocketStack.send (s : BlockingSocketStack) (socket : Nat)
    (buffer : List Nat) : Except NbError Nat × BlockingSocketStack :=
  match s.check_socket (some socket) with
  | Except.error e => (Except.error (NbError.Other e), s)
  | Except.ok _ =>
    let send_window := s.underlying.send_capacity - s.underlying.send_queue
    if send_window = 0 then
      (Except.error NbError.WouldBlock, s)
    else
      let send_size := min send_window buffer.length
      if send_size = 0 then
        (Except.ok 0, s)
      else
        match s.underlying.write (buffer.take send_size) with
        | Except.ok (size, sock) => (Except.ok size, { s with underlying := sock })
        | Except.error TcpError.ConnectionReset =>
          (Except.error (NbError.Other SocketError.ConnectionReset), s)

/-- `BlockingSocketStack::receive`: id check; report `ConnectionReset`
immediately if the socket can no longer receive; would-block when no data is
buffered; otherwise read into the output buffer (modelled by its length). -/
def BlockingSocketStack.receive (s : BlockingSocketStack) (socket : Nat)
    (buffer_len : Nat) : Except NbError Nat × BlockingSocketStack :=
  match s.check_socket (some socket) with
  | Except.error e => (Except.error (NbError.Other e), s)
  | Except.ok _ =>
    if !s.underlying.may_recv then
      (Except.error (NbError.Other SocketError.ConnectionReset), s)
    else if !s.underlying.can_recv then
      (Except.error NbError.WouldBlock, s)
    else
      match s.underlying.read buffer_len with
      | Except.ok (size, sock) => (Except.ok size, { s with underlying := sock })
      | Except.error TcpError.ConnectionReset =>
        (Except.error (NbError.Other SocketError.ConnectionReset), s)

/-- `BlockingSocketStack::close`: id check, mark the underlying socket closed
and free the logical connection. -/
def BlockingSocketStack.close (s : BlockingSocketStack) (socket : Nat) :
    Except SocketError Unit × BlockingSocketStack :=
  match s.check_socket (some socket) with
  | Except.error e => (Except.error e, s)
  | Except.ok _ =>
    (Except.ok (),
      { s with underlying := s.underlying.close, current_socket_id := none })

/-- A concrete live socket used by the adapter witnesses. -/
def sampleSocket : TcpSocketModel :=
  { may_send := true, may_recv := true, rx_buffer := [7, 8], send_capacity := 8,
    tx_queue := [1, 2], closed := false }

/-- A concrete adapter state with logical connection 1 open. -/
def sampleStack : BlockingSocketStack :=
  { underlying := sampleSocket, endpoint := ((127, 0, 0, 1), 1883),
    current_socket_id := some 1, last_socket_id := 1 }

/-- C5: while logical connection `i` is open, a second `socket()` call fails
with `UnexpectedSocketId` and leaves the whole adapter state (live id
included) unchanged; and `send`/`receive`/`close` with an id other than the
current one fail with `UnexpectedSocketId` and leave the adapter state —
underlying socket included — untouched. -/
theorem adapter_id_mismatch_guard (s : BlockingSocketStack) (i got buffer_len : Nat)
    (buffer : List Nat) :
    (s.current_socket_id = some i →
        s.socket = (Except.error (SocketError.UnexpectedSocketId (some i) none), s)) ∧
      (some got ≠ s.current_socket_id →
        s.send got buffer =
            (Except.error
                (NbError.Other (SocketError.UnexpectedSocketId s.current_socket_id (some got))),
              s) ∧
          s.receive got buffer_len =
            (Except.error
                (NbError.Other (SocketError.UnexpectedSocketId s.current_socket_id (some got))),
              s) ∧
          s.close got =
            (Except.error (SocketError.UnexpectedSocketId s.current_socket_id (some got)), s)) := by
  constructor
  · intro h
    simp [BlockingSocketStack.socket, BlockingSocketStack.check_socket, h]
  · intro h
    refine ⟨?_, ?_, ?_⟩
    · simp [BlockingSocketStack.send, BlockingSocketStack.check_socket, h]
    · simp [BlockingSocketStack.receive, BlockingSocketStack.check_socket, h]
    · simp [BlockingSocketStack.close, BlockingSocketStack.check_socket, h]

theorem adapter_id_mismatch_guard_witness :
    (sampleStack.current_socket_id = some 1 ∧
      sampleStack.socket =
        (Except.error (SocketError.UnexpectedSocketId (some 1) none), sampleStack)) ∧
      (some 2 ≠ sampleStack.current_socket_id ∧
        (sampleStack.send 2 [5] =
            (Except.error
                (NbError.Other
                  (SocketError.UnexpectedSocketId sampleStack.current_socket_id (some 2))),
              sampleStack) ∧
          sampleStack.receive 2 10 =
            (Except.error
                (NbError.Other
                  (SocketError.UnexpectedSocketId sampleStack.current_socket_id (some 2))),
              sampleStack) ∧
          sampleStack.close 2 =
            (Except.error
                (SocketError.UnexpectedSocketId sampleStack.current_socket_id (some 2)),
              sampleStack))) :=
  ⟨⟨rfl, (adapter_id_mismatch_guard sampleStack 1 2 10 [5]).1 rfl⟩,
    ⟨by decide, (adapter_id_mismatch_guard sampleStack 1 2 10 [5]).2 (by decide)⟩⟩

/-- C6: with a matching logical id, `receive` reports `ConnectionReset` as soon
as the socket can no longer receive — regardless of buffered data; otherwise it
would-blocks when nothing is buffered, and otherwise reads
`min(buffered, output capacity)` bytes and returns that count. -/
theorem receive_reset_priority (s : BlockingSocketStack) (got buffer_len : Nat)
    (hid : s.current_socket_id = some got) :
    (s.underlying.may_recv = false →
        s.receive got buffer_len =
          (Except.error (NbError.Other SocketError.ConnectionReset), s)) ∧
      (s.underlying.may_recv = true → s.underlying.rx_buffer = [] →
        s.receive got buffer_len = (Except.error NbError.WouldBlock, s)) ∧
      (s.underlying.may_recv = true → s.underlying.rx_buffer ≠ [] →
        s.receive got buffer_len =
          (Except.ok (min s.underlying.rx_buffer.length buffer_len),
            { s with underlying :=
              { s.underlying with rx_buffer := s.underlying.rx_buffer.drop (min s.underlying.rx_buffer.length buffer_len) } })) := by
  refine ⟨?_, ?_, ?_⟩
  · intro h
    simp [BlockingSocketStack.receive, BlockingSocketStack.check_socket, hid, h]
  · intro h hrx
    simp [BlockingSocketStack.receive, BlockingSocketStack.check_socket,
      TcpSocketModel.can_recv, hid, h, hrx]
  · intro h hrx
    simp [BlockingSocketStack.receive, BlockingSocketStack.check_socket,
      TcpSocketModel.can_recv, TcpSocketModel.read, hid, h, hrx]

theorem receive_reset_priority_witness :
    (sampleStack.current_socket_id = some 1 ∧
      ({ sampleStack with
            underlying := { sampleSocket with may_recv := false } }.underlying.may_recv
          = false ∧
        BlockingSocketStack.receive
            { sampleStack with underlying := { sampleSocket with may_recv := false } } 1 10 =
          (Except.error (NbError.Other SocketError.ConnectionReset),
            { sampleStack with underlying := { sampleSocket with may_recv := false } }))) ∧
      (sampleStack.current_socket_id = some 1 ∧
        ({ sampleStack with
              underlying := { sampleSocket with rx_buffer := [] } }.underlying.may_recv
            = true ∧
          { sampleStack with
              underlying := { sampleSocket with rx_buffer := [] } }.underlying.rx_buffer
            = [] ∧
          BlockingSocketStack.receive
              { sampleStack with underlying := { sampleSocket with rx_buffer := [] } } 1 10 =
            (Except.error NbError.WouldBlock,
              { sampleStack with underlying := { sampleSocket with rx_buffer := [] } }))) ∧
      (sampleStack.current_socket_id = some 1 ∧
        (sampleStack.underlying.may_recv = true ∧
          sampleStack.underlying.rx_buffer ≠ [] ∧
          sampleStack.receive 1 10 =
            (Except.ok (min sampleStack.underlying.rx_buffer.length 10),
              { sampleStack with underlying :=
                { sampleStack.underlying with rx_buffer := sampleStack.underlying.rx_buffer.drop (min sampleStack.underlying.rx_buffer.length 10) } }))) :=
  ⟨⟨rfl,
      rfl,
      (receive_reset_priority
            { sampleStack with underlying := { sampleSocket with may_recv := false } } 1 10
            rfl).1 rfl⟩,
    ⟨rfl,
      rfl, rfl,
      (receive_reset_priority
            { sampleStack with underlying := { sampleSocket with rx_buffer := [] } } 1 10
            rfl).2.1 rfl rfl⟩,
    ⟨rfl,
      rfl, by decide,
      (receive_reset_priority sampleStack 1 10 rfl).2.2 rfl (by decide)⟩⟩

/-- C7: with a matching logical id, `send` would-blocks without writing when
the send headroom (`send_capacity - send_queue`) is zero; otherwise it writes
exactly `min(headroom, buffer.length)` bytes and returns that count (`Ok 0`
directly for an empty buffer); a reset send half is reported as the distinct
`ConnectionReset` error. -/
theorem send_partial_write (s : BlockingSocketStack) (got : Nat) (buffer : List Nat)
    (hid : s.current_socket_id = some got) :
    (s.underlying.send_capacity - s.underlying.send_queue = 0 →
        s.send got buffer = (Except.error NbError.WouldBlock, s)) ∧
      (s.underlying.send_capacity - s.underlying.send_queue ≠ 0 → buffer = [] →
        s.send got buffer = (Except.ok 0, s)) ∧
      (s.underlying.send_capacity - s.underlying.send_queue ≠ 0 → buffer ≠ [] →
        s.underlying.may_send = true →
        s.send got buffer =
          (Except.ok (min (s.underlying.send_capacity - s.underlying.send_queue) buffer.length),
            { s with underlying :=
              { s.underlying with tx_queue := s.underlying.tx_queue ++ buffer.take (min (s.underlying.send_capacity - s.underlying.send_queue) buffer.length) } })) ∧
      (s.underlying.send_capacity - s.underlying.send_queue ≠ 0 → buffer ≠ [] →
        s.underlying.may_send = false →
        s.send got buffer = (Except.error (NbError.Other SocketError.ConnectionReset), s)) := by
  refine ⟨?_, ?_, ?_, ?_⟩
  · intro h
    simp [BlockingSocketStack.send, BlockingSocketStack.check_socket, hid, h]
  · intro h hb
    subst hb
    simp [BlockingSocketStack.send, BlockingSocketStack.check_socket, hid, h]
  · intro h hb hms
    have hlen : buffer.length ≠ 0 := by
      have := List.length_pos.mpr hb
      omega
    have hsz : min (s.underlying.send_capacity - s.underlying.send_queue) buffer.length ≠ 0 := by
      rcases Nat.eq_zero_or_pos (min (s.underlying.send_capacity - s.underlying.send_queue) buffer.length) with h0 | h0
      · rw [Nat.min_eq_zero_iff] at h0
        omega
      · omega
    have htk : (buffer.take (min (s.underlying.send_capacity - s.underlying.send_queue) buffer.length)).length = min (s.underlying.send_capacity - s.underlying.send_queue) buffer.length := by
      rw [List.length_take]
      exact Nat.min_eq_left (Nat.min_le_right _ _)
    simp only [BlockingSocketStack.send, BlockingSocketStack.check_socket,
      TcpSocketModel.write, hid]
    rw [if_neg (by simp)]
    rw [if_neg h, if_neg hsz, if_pos hms]
    rw [htk]
    rw [Nat.min_eq_right (Nat.min_le_left _ _)]
    rw [List.take_take]
    rw [Nat.min_self]
  · intro h hb hms
    have hsz : min (s.underlying.send_capacity - s.underlying.send_queue) buffer.length ≠ 0 := by
      have hlen : buffer.length ≠ 0 := by
        have := List.length_pos.mpr hb
        omega
      rcases Nat.eq_zero_or_pos (min (s.underlying.send_capacity - s.underlying.send_queue) buffer.length) with h0 | h0
      · rw [Nat.min_eq_zero_iff] at h0
        omega
      · omega
    simp only [BlockingSocketStack.send, BlockingSocketStack.check_socket,
      TcpSocketModel.write, hid]
    rw [if_neg (by simp)]
    rw [if_neg h, if_neg hsz, if_neg (by simp [hms])]

theorem send_partial_write_witness :
    (({ sampleStack with underlying := { sampleSocket with send_capacity := 2 } } : BlockingSocketStack).current_socket_id = some 1 ∧
      ({ sampleStack with underlying := { sampleSocket with send_capacity := 2 } } : BlockingSocketStack).underlying.send_capacity - ({ sampleStack with underlying := { sampleSocket with send_capacity := 2 } } : BlockingSocketStack).underlying.send_queue = 0 ∧
        BlockingSocketStack.send { sampleStack with underlying := { sampleSocket with send_capacity := 2 } } 1 [5, 6, 7] =
          (Except.error NbError.WouldBlock,
            { sampleStack with underlying := { sampleSocket with send_capacity := 2 } })) ∧
      (sampleStack.current_socket_id = some 1 ∧
        sampleStack.underlying.send_capacity - sampleStack.underlying.send_queue ≠ 0 ∧
        sampleStack.send 1 [] = (Except.ok 0, sampleStack)) ∧
      (sampleStack.current_socket_id = some 1 ∧
        sampleStack.underlying.send_capacity - sampleStack.underlying.send_queue ≠ 0 ∧
        ([5, 6, 7] : List Nat) ≠ [] ∧
        sampleStack.underlying.may_send = true ∧
        sampleStack.send 1 [5, 6, 7] =
          (Except.ok (min (sampleStack.underlying.send_capacity - sampleStack.underlying.send_queue) ([5, 6, 7] : List Nat).length),
            { sampleStack with underlying :=
              { sampleStack.underlying with tx_queue := sampleStack.underlying.tx_queue ++ ([5, 6, 7] : List Nat).take (min (sampleStack.underlying.send_capacity - sampleStack.underlying.send_queue) ([5, 6, 7] : List Nat).length) } })) ∧
      (({ sampleStack with underlying := { sampleSocket with may_send := false } } : BlockingSocketStack).current_socket_id = some 1 ∧
        ({ sampleStack with underlying := { sampleSocket with may_send := false } } : BlockingSocketStack).underlying.send_capacity - ({ sampleStack with underlying := { sampleSocket with may_send := false } } : BlockingSocketStack).underlying.send_queue ≠ 0 ∧
        ([5, 6, 7] : List Nat) ≠ [] ∧
        ({ sampleStack with underlying := { sampleSocket with may_send := false } } : BlockingSocketStack).underlying.may_send = false ∧
        BlockingSocketStack.send { sampleStack with underlying := { sampleSocket with may_send := false } } 1 [5, 6, 7] =
          (Except.error (NbError.Other SocketError.ConnectionReset),
            { sampleStack with underlying := { sampleSocket with may_send := false } })) :=
  ⟨⟨rfl, rfl,
      (send_partial_write { sampleStack with underlying := { sampleSocket with send_capacity := 2 } } 1 [5, 6, 7] rfl).1 rfl⟩,
    ⟨rfl, by decide,
      (send_partial_write sampleStack 1 [] rfl).2.1 (by decide) rfl⟩,
    ⟨rfl, by decide, by decide, rfl,
      (send_partial_write sampleStack 1 [5, 6, 7] rfl).2.2.1 (by decide) (by decide) rfl⟩,
    ⟨rfl, by decide, by decide, rfl,
      (send_partial_write { sampleStack with underlying := { sampleSocket with may_send := false } } 1 [5, 6, 7] rfl).2.2.2 (by decide) (by decide) rfl⟩⟩

/-- `config.rs::MqttTopics`: full topic names. -/
structure MqttTopics where
  cmd : String
  log : String
  set : String
  state : String
deriving DecidableEq, Repr

/-- `config.rs::CONFIG.mqtt_topics`: the four topics derived from the
configured prefix by suffix concatenation. -/
def mqttTopics (pfx : String) : MqttTopics :=
  { cmd := pfx ++ "/cmd", log := pfx ++ "/log", set := pfx ++ "/set",
    state := pfx ++ "/state" }

/-- `mqtt.rs::MqttCommand`. -/
inductive MqttCommand
  | Unknown
  | Set (s : TargetState)
deriving DecidableEq, Repr

/-- The `mqtt_log!` side effect of `process_incoming`, reified as a value. -/
inductive LogEvent
  | pong (payload : List Char)
  | unknownSet (msg : List Char)
  | unknownCmd (msg : List Char)
  | unknownTopic (topic : String)
deriving DecidableEq, Repr

/-- `mqtt.rs::process_incoming`: convert a raw incoming message into a parsed
command; the returned `Option LogEvent` is the `mqtt_log!` call the Rust code
makes on that path. -/
def process_incoming (topic : String) (msg : List Char) (mqtt_topics : MqttTopics) :
    MqttCommand × Option LogEvent :=
  if topic = mqtt_topics.set then
    match msg with
    | ['o', 'f', 'f'] => (MqttCommand.Set TargetState.Off, none)
    | ['l', 'o', 'w'] => (MqttCommand.Set (TargetState.On PowerLevel.Low), none)
    | ['m', 'e', 'd', 'i', 'u', 'm'] => (MqttCommand.Set (TargetState.On PowerLevel.Medium), none)
    | ['h', 'i', 'g', 'h'] => (MqttCommand.Set (TargetState.On PowerLevel.High), none)
    | _ => (MqttCommand.Unknown, some (LogEvent.unknownSet msg))
  else if topic = mqtt_topics.cmd then
    match msg with
    | 'p' :: 'i' :: 'n' :: 'g' :: ' ' :: ping => (MqttCommand.Unknown, some (LogEvent.pong ping))
    | _ => (MqttCommand.Unknown, some (LogEvent.unknownCmd msg))
  else
    (MqttCommand.Unknown, some (LogEvent.unknownTopic topic))

/-- The target-register update `minimq_task` performs on a poll result:
`Set(state)` stores the state, anything else leaves the register alone. -/
def apply_command (c : MqttCommand) (target : TargetState) : TargetState :=
  match c with
  | MqttCommand.Set s => s
  | MqttCommand.Unknown => target

theorem mqttTopics_set_ne_cmd (pfx : String) :
    (mqttTopics pfx).set ≠ (mqttTopics pfx).cmd := by
  intro h
  have hd := congrArg String.data h
  simp only [mqttTopics, String.data_append] at hd
  have h2 := List.append_cancel_left hd
  exact absurd h2 (by decide)

/-- C8: with topics configured from any prefix, an inbound message on the set
topic with payload exactly `off`/`low`/`medium`/`high` sets the target register
to `Off`/`On(Low)`/`On(Medium)`/`On(High)`; a message on the cmd topic whose
payload starts with `ping ` echoes the remainder to the log sink and leaves the
register unchanged; every other (topic, payload) is logged as unrecognized and
leaves the register unchanged. -/
theorem process_incoming_routes (pfx topic : String) (msg rest : List Char)
    (target : TargetState) :
    (topic = (mqttTopics pfx).set →
        (msg = ['o', 'f', 'f'] →
            process_incoming topic msg (mqttTopics pfx) =
                (MqttCommand.Set TargetState.Off, none) ∧
              apply_command (process_incoming topic msg (mqttTopics pfx)).1 target =
                TargetState.Off) ∧
          (msg = ['l', 'o', 'w'] →
            process_incoming topic msg (mqttTopics pfx) =
                (MqttCommand.Set (TargetState.On PowerLevel.Low), none) ∧
              apply_command (process_incoming topic msg (mqttTopics pfx)).1 target =
                TargetState.On PowerLevel.Low) ∧
          (msg = ['m', 'e', 'd', 'i', 'u', 'm'] →
            process_incoming topic msg (mqttTopics pfx) =
                (MqttCommand.Set (TargetState.On PowerLevel.Medium), none) ∧
              apply_command (process_incoming topic msg (mqttTopics pfx)).1 target =
                TargetState.On PowerLevel.Medium) ∧
          (msg = ['h', 'i', 'g', 'h'] →
            process_incoming topic msg (mqttTopics pfx) =
                (MqttCommand.Set (TargetState.On PowerLevel.High), none) ∧
              apply_command (process_incoming topic msg (mqttTopics pfx)).1 target =
                TargetState.On PowerLevel.High) ∧
          (msg ≠ ['o', 'f', 'f'] → msg ≠ ['l', 'o', 'w'] →
            msg ≠ ['m', 'e', 'd', 'i', 'u', 'm'] → msg ≠ ['h', 'i', 'g', 'h'] →
            process_incoming topic msg (mqttTopics pfx) =
                (MqttCommand.Unknown, some (LogEvent.unknownSet msg)) ∧
              apply_command (process_incoming topic msg (mqttTopics pfx)).1 target =
                target)) ∧
      (topic = (mqttTopics pfx).cmd →
        (msg = 'p' :: 'i' :: 'n' :: 'g' :: ' ' :: rest →
            process_incoming topic msg (mqttTopics pfx) =
                (MqttCommand.Unknown, some (LogEvent.pong rest)) ∧
              apply_command (process_incoming topic msg (mqttTopics pfx)).1 target =
                target) ∧
          ((∀ r, msg ≠ 'p' :: 'i' :: 'n' :: 'g' :: ' ' :: r) →
            process_incoming topic msg (mqttTopics pfx) =
                (MqttCommand.Unknown, some (LogEvent.unknownCmd msg)) ∧
              apply_command (process_incoming topic msg (mqttTopics pfx)).1 target =
                target)) ∧
      (topic ≠ (mqttTopics pfx).set → topic ≠ (mqttTopics pfx).cmd →
        process_incoming topic msg (mqttTopics pfx) =
            (MqttCommand.Unknown, some (LogEvent.unknownTopic topic)) ∧
          apply_command (process_incoming topic msg (mqttTopics pfx)).1 target = target) := by
  refine ⟨?_, ?_, ?_⟩
  · intro ht
    subst ht
    refine ⟨?_, ?_, ?_, ?_, ?_⟩
    · intro hm
      subst hm
      exact ⟨by simp [process_incoming], by simp [process_incoming, apply_command]⟩
    · intro hm
      subst hm
      exact ⟨by simp [process_incoming], by simp [process_incoming, apply_command]⟩
    · intro hm
      subst hm
      exact ⟨by simp [process_incoming], by simp [process_incoming, apply_command]⟩
    · intro hm
      subst hm
      exact ⟨by simp [process_incoming], by simp [process_incoming, apply_command]⟩
    · intro h1 h2 h3 h4
      have hp : process_incoming ((mqttTopics pfx).set) msg (mqttTopics pfx) =
          (MqttCommand.Unknown, some (LogEvent.unknownSet msg)) := by
        unfold process_incoming
        rw [if_pos rfl]
        split
        · exact absurd rfl h1
        · exact absurd rfl h2
        · exact absurd rfl h3
        · exact absurd rfl h4
        · rfl
      exact ⟨hp, by rw [hp]; rfl⟩
  · intro ht
    have hne : topic ≠ (mqttTopics pfx).set := by
      rw [ht]
      exact (mqttTopics_set_ne_cmd pfx).symm
    subst ht
    refine ⟨?_, ?_⟩
    · intro hm
      subst hm
      have hp : process_incoming ((mqttTopics pfx).cmd)
          ('p' :: 'i' :: 'n' :: 'g' :: ' ' :: rest) (mqttTopics pfx) =
          (MqttCommand.Unknown, some (LogEvent.pong rest)) := by
        unfold process_incoming
        rw [if_neg hne, if_pos rfl]
        rfl
      exact ⟨hp, by rw [hp]; rfl⟩
    · intro h
      have hp : process_incoming ((mqttTopics pfx).cmd) msg (mqttTopics pfx) =
          (MqttCommand.Unknown, some (LogEvent.unknownCmd msg)) := by
        unfold process_incoming
        rw [if_neg hne, if_pos rfl]
        split
        · exact absurd rfl (h _)
        · rfl
      exact ⟨hp, by rw [hp]; rfl⟩
  · intro h1 h2
    have hp : process_incoming topic msg (mqttTopics pfx) =
        (MqttCommand.Unknown, some (LogEvent.unknownTopic topic)) := by
      unfold process_incoming
      rw [if_neg h1, if_neg h2]
    exact ⟨hp, by rw [hp]; rfl⟩

theorem process_incoming_routes_witness :
    (("f58/set" : String) = (mqttTopics ("f58")).set ∧
      (['h', 'i', 'g', 'h'] : List Char) = ['h', 'i', 'g', 'h'] ∧
      process_incoming ("f58/set") ['h', 'i', 'g', 'h'] (mqttTopics ("f58")) =
          (MqttCommand.Set (TargetState.On PowerLevel.High), none) ∧
      apply_command
          (process_incoming ("f58/set") ['h', 'i', 'g', 'h'] (mqttTopics ("f58"))).1
          TargetState.Off =
        TargetState.On PowerLevel.High) ∧
      (("f58/cmd" : String) = (mqttTopics ("f58")).cmd ∧
        (['p', 'i', 'n', 'g', ' ', 'a', 'b', 'c'] : List Char) =
          'p' :: 'i' :: 'n' :: 'g' :: ' ' :: ['a', 'b', 'c'] ∧
        process_incoming ("f58/cmd") ['p', 'i', 'n', 'g', ' ', 'a', 'b', 'c']
            (mqttTopics ("f58")) =
          (MqttCommand.Unknown, some (LogEvent.pong ['a', 'b', 'c'])) ∧
        apply_command
            (process_incoming ("f58/cmd") ['p', 'i', 'n', 'g', ' ', 'a', 'b', 'c']
                (mqttTopics ("f58"))).1
            (TargetState.On PowerLevel.High) =
          TargetState.On PowerLevel.High) ∧
      (("f58/other" : String) ≠ (mqttTopics ("f58")).set ∧
        ("f58/other" : String) ≠ (mqttTopics ("f58")).cmd ∧
        process_incoming ("f58/other") ['x'] (mqttTopics ("f58")) =
          (MqttCommand.Unknown, some (LogEvent.unknownTopic ("f58/other"))) ∧
        apply_command
            (process_incoming ("f58/other") ['x'] (mqttTopics ("f58"))).1
            TargetState.Off =
          TargetState.Off) :=
  ⟨⟨by decide, rfl,
      ((process_incoming_routes ("f58") ("f58/set") ['h', 'i', 'g', 'h'] [] TargetState.Off).1
          (by decide)).2.2.2.1 rfl⟩,
    ⟨by decide, rfl,
      ((process_incoming_routes ("f58") ("f58/cmd") ['p', 'i', 'n', 'g', ' ', 'a', 'b', 'c']
              ['a', 'b', 'c'] (TargetState.On PowerLevel.High)).2.1
          (by decide)).1 rfl⟩,
    ⟨by decide, by decide,
      (process_incoming_routes ("f58") ("f58/other") ['x'] [] TargetState.Off).2.2
        (by decide) (by decide)⟩⟩

end Flair58
